import Mathlib

/-!
Verification development for the browser-automation agent
(`src/agents/browser_agent.py`, `src/memory/episodic_memory.py`,
`src/browser/element_finder.py`, `src/tools/action_tools.py`,
`src/patterns/reflection_pattern.py`, `src/config.py`).

The Python code is shallowly embedded: dictionaries become association
lists over a JSON value type, Python string methods are re-implemented
(including `str.lower` on the ASCII and Cyrillic ranges actually used),
exceptions become explicit `Except`/`Option` results, and the few
genuinely external effects (the language-model call, the Selenium
driver, `hashlib.md5`, `datetime.now`) are oracle parameters.
All numeric literals of the source (`0.8`, `1.0`, `0.7`, ...) are exact
decimals, embedded as rationals.
-/

namespace BrowserAI

/-! ### Python string primitives -/

/-- Model of `str.lower` restricted to the character ranges the sources use:
ASCII capitals and the Cyrillic block А..Я plus Ё. -/
def pyLowerChar (c : Char) : Char :=
  if 65 ≤ c.toNat ∧ c.toNat ≤ 90 then Char.ofNat (c.toNat + 32)
  else if 1040 ≤ c.toNat ∧ c.toNat ≤ 1071 then Char.ofNat (c.toNat + 32)
  else if c.toNat = 1025 then Char.ofNat 1105
  else c

/-- Python `s.lower()`. -/
def pyLower (s : String) : String := String.mk (s.toList.map pyLowerChar)

/-- Whether `p` is a leading segment of `l`. -/
def isPrefixList : List Char → List Char → Bool
  | [], _ => true
  | _ :: _, [] => false
  | a :: as, b :: bs => a == b && isPrefixList as bs

/-- Whether `n` occurs contiguously inside `h`. -/
def isInfixList (n : List Char) : List Char → Bool
  | [] => n.isEmpty
  | c :: t => isPrefixList n (c :: t) || isInfixList n t

/-- Python `needle in haystack` on strings. -/
def strContains (haystack needle : String) : Bool :=
  isInfixList needle.toList haystack.toList

/-- The apostrophe character (codepoint 39). -/
def aposChar : Char := Char.ofNat 39

/-- The double-quote character (codepoint 34). -/
def dquoteChar : Char := Char.ofNat 34

/-- Python regex `\s` class members. -/
def isSpaceChar (c : Char) : Bool :=
  c.toNat = 32 || c.toNat = 9 || c.toNat = 10 || c.toNat = 13 ||
  c.toNat = 11 || c.toNat = 12

/-- A character matched by the regex class holding both quote kinds. -/
def isQuoteChar (c : Char) : Bool := c.toNat = 39 || c.toNat = 34

/-! ### JSON values and Python dictionaries

Python dictionaries (the shape `json.loads` returns for an object) are
association lists; lookup takes the last binding for a key, matching a
dictionary in which a later assignment to the same key wins. -/

inductive Json where
  | str (s : String)
  | num (q : ℚ)
  | bool (b : Bool)
  | null
  | arr (xs : List Json)
  | obj (fields : List (String × Json))

/-- A Python dictionary with string keys. -/
abbrev JObj := List (String × Json)

/-- Python `d.get(k)` / `k in d`: `none` means the key is absent. -/
def dget (o : JObj) (k : String) : Option Json :=
  ((o.filter (fun p => p.1 == k)).getLast?).map (fun p => p.2)

/-- Python truthiness of a JSON value. -/
def pyTruthy : Json → Bool
  | .str s => !s.isEmpty
  | .num q => q ≠ 0
  | .bool b => b
  | .null => false
  | .arr xs => !xs.isEmpty
  | .obj fs => !fs.isEmpty

/-- Truthiness of an optional string (`None` and `""` are falsy). -/
def pyTruthyStr : Option String → Bool
  | none => false
  | some s => !s.isEmpty

/-! ### ActionDecisionEngine
(`BrowserAgent.decide_next_action` and `BrowserAgent._parse_llm_response`,
src/agents/browser_agent.py lines 257-345.)

The regex extraction of the first `{...}` block and `json.loads` are
Python-library steps on the raw reply; they are abstracted by a
three-way summary of their outcome.  The fallback
`ActionTools.parse_action_from_llm` re-reads the same raw text, so its
result is carried alongside the decode-error case. -/

/-- Model of `ActionTools.Action` (src/tools/action_tools.py lines 5-11). -/
structure Action where
  type : String
  description : String
  parameters : JObj
  confidence : ℚ := 1

/-- Outcome of `re.search` for `{.*}` plus `json.loads` on a raw reply. -/
inductive BraceParse where
  /-- The regex found no brace-delimited substring. -/
  | noMatch
  /-- `json.loads` raised `JSONDecodeError`; the carried value is what
  `ActionTools.parse_action_from_llm` produces for the same raw text. -/
  | decodeError (fallback : Option Action)
  /-- `json.loads` succeeded with the given object. -/
  | ok (dict : JObj)

/-- The dictionary built from a fallback `Action`
(src/agents/browser_agent.py lines 337-343). -/
def actionToDecision (a : Action) : JObj :=
  [("action", .str a.type),
   ("description", .str a.description),
   ("parameters", .obj a.parameters),
   ("confidence", .num a.confidence),
   ("reasoning", .str "Определено на основе текстового анализа")]

/-- Model of `BrowserAgent._parse_llm_response`
(src/agents/browser_agent.py lines 305-345). -/
def parse_llm_response : BraceParse → Option JObj
  | .noMatch => none
  | .decodeError fb => fb.map actionToDecision
  | .ok dict =>
    if (dget dict "action").isNone || (dget dict "description").isNone then
      none
    else
      let d1 := if (dget dict "parameters").isNone
        then dict ++ [("parameters", .obj [])] else dict
      let d2 := if (dget d1 "confidence").isNone
        then d1 ++ [("confidence", .num ((8 : ℚ) / 10))] else d1
      some d2

/-- The default decision returned when parsing fails
(src/agents/browser_agent.py lines 291-297). -/
def defaultAnalyzeDecision : JObj :=
  [("action", .str "analyze"),
   ("description", .str "Проанализировать текущую ситуацию"),
   ("parameters", .obj []),
   ("confidence", .num 1),
   ("reasoning", .str "Не удалось распознать следующее действие")]

/-- Model of `BrowserAgent.decide_next_action` (src/agents/browser_agent.py
lines 257-303).  The argument is the outcome of `self.llm.generate`:
`.error` when the call raised (the `except` branch returns `None`),
`.ok` carrying the parse summary of the returned content. -/
def decide_next_action (resp : Except Unit BraceParse) : Option JObj :=
  match resp with
  | .error _ => none
  | .ok bp =>
    match parse_llm_response bp with
    | none => some defaultAnalyzeDecision
    | some d => some d

/-! ### ActionTools.execute_action
(src/tools/action_tools.py lines 17-28 and 258-285.)

The browser collaborator is a parameter sending a method name and the
keyword parameters to either a returned dictionary or a raised
exception (`.error` carries Python `str(e)`); a raised `AttributeError`
from the `getattr` lookup is covered by the same `.error` case, since
both land in the one `except` block. -/

/-- Model of `ActionTools.ACTION_MAPPING`. -/
def ACTION_MAPPING : List (String × String) :=
  [("navigate", "navigate_to"),
   ("click", "click_element"),
   ("type", "type_text"),
   ("press_key", "press_key"),
   ("scroll", "scroll"),
   ("go_back", "go_back"),
   ("refresh", "refresh"),
   ("screenshot", "take_screenshot"),
   ("execute_js", "execute_javascript"),
   ("wait", "wait")]

/-- Python `ACTION_MAPPING.get(t)` (first binding wins; the keys are
distinct, so plain leftmost lookup is the dictionary lookup). -/
def mappingGet (t : String) : Option String :=
  (ACTION_MAPPING.find? (fun p => p.1 == t)).map (fun p => p.2)

/-- Model of `ActionTools.execute_action` (src/tools/action_tools.py 258-285). -/
def execute_action (browser : String → JObj → Except String JObj)
    (a : Action) : JObj :=
  match mappingGet a.type with
  | none =>
    [("success", .bool false),
     ("error", .str ("Unknown action type: " ++ a.type)),
     ("message", .str ("Неизвестный тип действия: " ++ a.type))]
  | some methodName =>
    match browser methodName a.parameters with
    | .ok result => result
    | .error e =>
      [("success", .bool false),
       ("error", .str e),
       ("message", .str ("Ошибка при выполнении действия: " ++ a.type))]

/-! ### EpisodicMemory (src/memory/episodic_memory.py)

`hashlib.md5(...).hexdigest()[:8]` and `datetime.now().isoformat()` are
external; they enter as an abstract digest function `md5` and a
timestamp string `now`.  `Episode.actions` holds the action dictionaries
verbatim as JSON values, as `json.dump`/`json.load` do. -/

/-- The `Episode` dataclass (src/memory/episodic_memory.py lines 7-20). -/
structure Episode where
  id : String
  url : String
  title : String
  page_type : String
  actions : List Json
  timestamp : String
  success : Bool
  learned_patterns : List String

/-- The in-memory state of `EpisodicMemory`: the episode list and the
pattern-frequency table (src/memory/episodic_memory.py lines 25-30). -/
structure MemoryState where
  episodes : List Episode
  patterns : List (String × ℕ)

/-- Python `str(x)` for the values an `action_type` field can hold,
used by the f-string in `_extract_patterns`. -/
def pyStr : Option Json → String
  | none => "None"
  | some (.str s) => s
  | some (.bool true) => "True"
  | some (.bool false) => "False"
  | some .null => "None"
  | some (.num q) => toString q
  | some (.arr _) => "list"
  | some (.obj _) => "dict"

/-- Python `a.get(k)` where `a` must be a dictionary: a non-dictionary
raises `AttributeError` (there is no `get` attribute). -/
def dictGetOpt (a : Json) (k : String) : Except String (Option Json) :=
  match a with
  | .obj fields => .ok (dget fields k)
  | _ => .error "AttributeError: get"

/-- Python `needle in container` for the value an `action_type` field
can hold: substring test on a string, membership on a list or on a
dictionary's keys, and a raised `TypeError` on anything else. -/
def pyInStr (container : Json) (needle : String) : Except String Bool :=
  match container with
  | .str s => .ok (strContains s needle)
  | .arr xs => .ok (xs.any (fun j => match j with
      | .str t => t == needle
      | _ => false))
  | .obj fs => .ok (fs.any (fun p => p.1 == needle))
  | _ => .error "TypeError: argument of type is not iterable"

/-- All adjacent pairs of a list, in order
(the `range(len(actions) - 1)` loop of `_extract_patterns`). -/
def adjacentPairs : List α → List (α × α)
  | a :: b :: rest => (a, b) :: adjacentPairs (b :: rest)
  | _ => []

/-- The patterns contributed by one adjacent pair of actions — the body
of the loop in `_extract_patterns` (lines 116-130) with its raising
paths: both `action.get` calls raise on a non-dictionary, the
`.lower()` of the `login`/`search` checks raises on a non-string
description (the two checks read the same value, so one test stands for
both), and the `in` tests of the click-then-type check follow Python
membership with Python's short-circuit `and`.  Error messages are
abbreviated forms of the exceptions' `str`. -/
def pairPatternsChecked (a1 a2 : Json) : Except String (List String) :=
  match dictGetOpt a1 "action_type" with
  | .error e => .error e
  | .ok t1 =>
    match dictGetOpt a2 "action_type" with
    | .error e => .error e
    | .ok t2 =>
      match dictGetOpt a1 "action_description" with
      | .error e => .error e
      | .ok dsc =>
        match dsc.getD (.str "") with
        | .str ds =>
          match pyInStr (t1.getD (.str "")) "click" with
          | .error e => .error e
          | .ok c1 =>
            match (if c1 then pyInStr (t2.getD (.str "")) "type"
                   else .ok false) with
            | .error e => .error e
            | .ok ct =>
              .ok ([pyStr t1 ++ " -> " ++ pyStr t2]
                ++ (if strContains (pyLower ds) "login"
                    then ["login_sequence"] else [])
                ++ (if strContains (pyLower ds) "search"
                    then ["search_sequence"] else [])
                ++ (if ct then ["click_then_type"] else []))
        | _ => .error "AttributeError: lower"

/-- The pattern lists of all adjacent pairs, concatenated in order, the
first raising pair aborting the whole extraction. -/
def patternsOfPairs : List (Json × Json) → Except String (List String)
  | [] => .ok []
  | p :: rest =>
    match pairPatternsChecked p.1 p.2 with
    | .error e => .error e
    | .ok ps =>
      match patternsOfPairs rest with
      | .error e => .error e
      | .ok more => .ok (ps ++ more)

/-- Model of `EpisodicMemory._extract_patterns` (lines 112-132), which
can raise on malformed action dictionaries.  `list(set(..))`
deduplicates with an order Python leaves unspecified; it is modelled as
first-occurrence deduplication, which no claim distinguishes. -/
def extract_patterns (actions : List Json) : Except String (List String) :=
  match patternsOfPairs (adjacentPairs actions) with
  | .error e => .error e
  | .ok ps => .ok ps.dedup

/-- One `self.patterns[p] = self.patterns.get(p, 0) + 1` update. -/
def bumpPattern (table : List (String × ℕ)) (p : String) : List (String × ℕ) :=
  if table.any (fun q => q.1 == p) then
    table.map (fun q => if q.1 == p then (q.1, q.2 + 1) else q)
  else
    table ++ [(p, 1)]

/-- Model of `EpisodicMemory.add_episode` (lines 32-62); also returns the
episode it constructed.  `md5` abstracts the 8-character hex digest,
`now` the timestamp.  The pattern mining runs before the episode is
built or appended, so when it raises, nothing is stored and the
exception escapes `add_episode`. -/
def add_episode (md5 : String → String) (now : String) (m : MemoryState)
    (url title page_type : String) (actions : List Json) (success : Bool) :
    Except String (MemoryState × Episode) :=
  match extract_patterns actions with
  | .error e => .error e
  | .ok patterns =>
    let ep : Episode :=
      { id := md5 (url ++ "_" ++ title ++ "_" ++ toString actions.length),
        url := url, title := title, page_type := page_type,
        actions := actions, timestamp := now, success := success,
        learned_patterns := patterns }
    .ok ({ episodes := m.episodes ++ [ep],
           patterns := patterns.foldl bumpPattern m.patterns }, ep)

/-- The `url and url in episode.url` test of `find_similar_episodes`. -/
def urlHit (url : Option String) (e : Episode) : Bool :=
  match url with
  | none => false
  | some u => !u.isEmpty && strContains e.url u

/-- The `page_type and episode.page_type == page_type` test. -/
def ptHit (page_type : Option String) (e : Episode) : Bool :=
  match page_type with
  | none => false
  | some p => !p.isEmpty && e.page_type == p

/-- The score `find_similar_episodes` assigns to one episode
(lines 71-81). -/
def epScore (url page_type : Option String) (e : Episode) : ℕ :=
  (if urlHit url e then 2 else 0)
  + (if ptHit page_type e then 1 else 0)
  + (if e.success then 1 else 0)

/-- Stable descending insertion by a numeric key: the new element goes
before the first element whose key is not larger. -/
def insertDesc (key : α → ℕ) (x : α) : List α → List α
  | [] => [x]
  | y :: ys => if key y ≤ key x then x :: y :: ys else y :: insertDesc key x ys

/-- Stable descending sort by a numeric key: the model of Python
`list.sort(key=..., reverse=True)`, which is documented stable. -/
def sortDesc (key : α → ℕ) : List α → List α
  | [] => []
  | x :: xs => insertDesc key x (sortDesc key xs)

/-- The positive-scoring episodes in stored order, sorted stably by
descending score (lines 69-87, with the `(score, episode)` tuples
elided since the sort key is the score alone). -/
def findSimilarSorted (url page_type : Option String)
    (eps : List Episode) : List Episode :=
  sortDesc (epScore url page_type)
    (eps.filter (fun e => 0 < epScore url page_type e))

/-- Model of `EpisodicMemory.find_similar_episodes` (lines 64-89). -/
def find_similar_episodes (url page_type : Option String)
    (max_results : ℕ) (eps : List Episode) : List Episode :=
  (findSimilarSorted url page_type eps).take max_results

/-! #### Persistence (`save`/`load`, lines 164-190)

`save` writes `{"episodes": [asdict(e) ...], "patterns": patterns}`;
`load` rebuilds each `Episode(**ep)` and the pattern table.  Encoding
goes to the JSON value the file holds; decoding requires each field to
be present with the stored shape, as reconstruction from a file this
code wrote guarantees. -/

/-- Model of `dataclasses.asdict` on an `Episode`, as serialized. -/
def episodeToJson (e : Episode) : Json :=
  .obj [("id", .str e.id),
        ("url", .str e.url),
        ("title", .str e.title),
        ("page_type", .str e.page_type),
        ("actions", .arr e.actions),
        ("timestamp", .str e.timestamp),
        ("success", .bool e.success),
        ("learned_patterns", .arr (e.learned_patterns.map Json.str))]

/-- Decode a list of JSON strings. -/
def decodeStrList : List Json → Option (List String)
  | [] => some []
  | .str s :: rest => (decodeStrList rest).map (fun l => s :: l)
  | _ => none

/-- Model of `Episode(**ep)` on a dictionary read back from the store. -/
def episodeOfJson : Json → Option Episode
  | .obj fields =>
    match dget fields "id", dget fields "url", dget fields "title",
          dget fields "page_type", dget fields "actions",
          dget fields "timestamp", dget fields "success",
          dget fields "learned_patterns" with
    | some (.str id), some (.str url), some (.str title),
      some (.str pt), some (.arr actions), some (.str ts),
      some (.bool success), some (.arr lp) =>
      (decodeStrList lp).map (fun patterns =>
        { id := id, url := url, title := title, page_type := pt,
          actions := actions, timestamp := ts, success := success,
          learned_patterns := patterns })
    | _, _, _, _, _, _, _, _ => none
  | _ => none

/-- Encode the pattern table as the JSON object `save` writes. -/
def patternsToJson (t : List (String × ℕ)) : List (String × Json) :=
  t.map (fun p => (p.1, .num (p.2 : ℚ)))

/-- Decode one pattern count (JSON integers are rationals with
denominator one). -/
def decodeCount (j : Json) : Option ℕ :=
  match j with
  | .num q => if q.den = 1 ∧ 0 ≤ q.num then some q.num.toNat else none
  | _ => none

/-- Decode the pattern table. -/
def patternsOfJson : List (String × Json) → Option (List (String × ℕ))
  | [] => some []
  | (k, v) :: rest =>
    match decodeCount v with
    | some n => (patternsOfJson rest).map (fun l => (k, n) :: l)
    | none => none

/-- Model of `EpisodicMemory.save`: the JSON value written to the backing file
(lines 164-175). -/
def saveMemory (m : MemoryState) : Json :=
  .obj [("episodes", .arr (m.episodes.map episodeToJson)),
        ("patterns", .obj (patternsToJson m.patterns))]

/-- Decode an episode list. -/
def episodesOfJson : List Json → Option (List Episode)
  | [] => some []
  | j :: rest =>
    match episodeOfJson j with
    | some e => (episodesOfJson rest).map (fun l => e :: l)
    | none => none

/-- Model of `EpisodicMemory.load` applied to a stored value (lines 177-190):
rebuild the episode list and the pattern table, with the code's
`data.get("episodes", [])` / `data.get("patterns", {})` defaults;
`none` is the `except` branch (any shape the rebuild chokes on). -/
def loadMemory : Json → Option MemoryState
  | .obj fields =>
    match (dget fields "episodes").getD (.arr []),
          (dget fields "patterns").getD (.obj []) with
    | .arr eps, .obj pats =>
      match episodesOfJson eps, patternsOfJson pats with
      | some es, some ps => some { episodes := es, patterns := ps }
      | _, _ => none
    | _, _ => none
  | _ => none

/-! ### ElementFinder (src/browser/element_finder.py)

A page is the document-ordered list of its elements, and
`driver.find_elements(By.CSS_SELECTOR, sel)` filters it by the
selector's meaning.  Every selector string the resolver uses is a fixed
literal of the source, so each is embedded as its matching predicate
(named below in source order).  An element stands for itself and for
the `ElementDescriptor` built from it; `xpath` is the locator
`find_element(By.XPATH, ...)` re-resolves. -/

/-- An element of the current page. -/
structure Elem where
  tag : String
  attrs : List (String × String)
  text : String
  displayed : Bool
  enabled : Bool
  xpath : String
deriving DecidableEq

/-- Model of `element.get_attribute(k)` / attribute presence. -/
def Elem.attr (e : Elem) (k : String) : Option String :=
  (e.attrs.find? (fun p => p.1 == k)).map (fun p => p.2)

/-- The eight selectors of the search tier
(src/browser/element_finder.py lines 397-406), in order:
`textarea[name='q']`, `input[name='q']`, `[aria-label='Поиск']`,
`[title='Поиск']`, `input[type='text'][title='Поиск']`,
`[name='search']`, `[role='searchbox']`, `input[type='search']`. -/
def searchSelectors : List (Elem → Bool) :=
  [fun e => e.tag == "textarea" && e.attr "name" == some "q",
   fun e => e.tag == "input" && e.attr "name" == some "q",
   fun e => e.attr "aria-label" == some "Поиск",
   fun e => e.attr "title" == some "Поиск",
   fun e => e.tag == "input" && e.attr "type" == some "text"
             && e.attr "title" == some "Поиск",
   fun e => e.attr "name" == some "search",
   fun e => e.attr "role" == some "searchbox",
   fun e => e.tag == "input" && e.attr "type" == some "search"]

/-- The four selectors of the button tier (lines 420-425):
`button`, `input[type='submit']`, `input[type='button']`,
`[role='button']`. -/
def buttonSelectors : List (Elem → Bool) :=
  [fun e => e.tag == "button",
   fun e => e.tag == "input" && e.attr "type" == some "submit",
   fun e => e.tag == "input" && e.attr "type" == some "button",
   fun e => e.attr "role" == some "button"]

/-- The thirteen selectors of `_get_interactive_elements`
(lines 159-164): the five plain tags, `[role='button']`,
`[role='link']`, `[role='menuitem']`, `[onclick]`, `[tabindex]`,
`[contenteditable='true']`, `[type='submit']`, `[type='button']`. -/
def interactiveSelectors : List (Elem → Bool) :=
  [fun e => e.tag == "a",
   fun e => e.tag == "button",
   fun e => e.tag == "input",
   fun e => e.tag == "textarea",
   fun e => e.tag == "select",
   fun e => e.attr "role" == some "button",
   fun e => e.attr "role" == some "link",
   fun e => e.attr "role" == some "menuitem",
   fun e => (e.attr "onclick").isSome,
   fun e => (e.attr "tabindex").isSome,
   fun e => e.attr "contenteditable" == some "true",
   fun e => e.attr "type" == some "submit",
   fun e => e.attr "type" == some "button"]

/-- The first displayed and enabled element of a candidate list. -/
def firstDisplayedEnabled (els : List Elem) : Option Elem :=
  els.find? (fun e => e.displayed && e.enabled)

/-- The search tier: walk the selector list, returning the first
displayed, enabled match of the first selector that has one. -/
def tierBySelectors (page : List Elem) : List (Elem → Bool) → Option Elem
  | [] => none
  | sel :: rest =>
    match firstDisplayedEnabled (page.filter sel) with
    | some e => some e
    | none => tierBySelectors page rest

/-- The button tier's per-element test (lines 432-440): keyword overlap
with search vocabulary, or non-empty text shorter than 20 characters;
the element must already be displayed and enabled. -/
def buttonTextOk (e : Elem) : Bool :=
  let t := pyLower e.text
  (["поиск", "search", "найти", "искать"].any (fun w => strContains t w))
  || (!t.isEmpty && t.length < 20)

/-- The button tier (lines 418-442). -/
def buttonTier (page : List Elem) : List (Elem → Bool) → Option Elem
  | [] => none
  | sel :: rest =>
    match (page.filter sel).find?
        (fun e => e.displayed && e.enabled && buttonTextOk e) with
    | some e => some e
    | none => buttonTier page rest

/-- Strip `p` from the front of `l`, or fail. -/
def stripPrefixChars : List Char → List Char → Option (List Char)
  | [], l => some l
  | _ :: _, [] => none
  | p :: ps, c :: cs => if p == c then stripPrefixChars ps cs else none

/-- Leftmost-position regex search: try the matcher at every suffix. -/
def scanFor (m : List Char → Option α) : List Char → Option α
  | [] => m []
  | c :: t =>
    match m (c :: t) with
    | some r => some r
    | none => scanFor m t

/-- One attempt of the regex `текст:\s*['"]([^'"]+)['"]` at a fixed
position (line 445). -/
def matchTextAt (l : List Char) : Option String :=
  (stripPrefixChars "текст:".toList l).bind (fun rest =>
    match rest.dropWhile isSpaceChar with
    | c :: rest2 =>
      if isQuoteChar c then
        let lit := rest2.takeWhile (fun d => !isQuoteChar d)
        match lit, rest2.dropWhile (fun d => !isQuoteChar d) with
        | _ :: _, _ :: _ => some (String.mk lit)
        | _, _ => none
      else none
    | [] => none)

/-- Model of `re.search` for the quoted-text pattern over a description. -/
def searchTextLit (s : String) : Option String :=
  scanFor matchTextAt s.toList

/-- One attempt of an `attr='value'` pattern such as `id='([^']+)'`
at a fixed position (lines 460-464). -/
def matchAttrAt (marker : List Char) (l : List Char) : Option String :=
  (stripPrefixChars marker l).bind (fun rest =>
    let lit := rest.takeWhile (fun c => c.toNat ≠ 39)
    match lit, rest.dropWhile (fun c => c.toNat ≠ 39) with
    | _ :: _, _ :: _ => some (String.mk lit)
    | _, _ => none)

/-- Model of `re.search` for `attrName='([^']+)'` over a description. -/
def searchAttrVal (attrName : String) (s : String) : Option String :=
  scanFor (matchAttrAt (attrName.toList ++ [('=' : Char), aposChar])) s.toList

/-- The quoted-text tier (lines 444-457): elements whose text equals or
contains the literal, first displayed and enabled one wins. -/
def textTier (page : List Elem) (lit : String) : Option Elem :=
  firstDisplayedEnabled
    (page.filter (fun e => e.text == lit || strContains e.text lit))

/-- The attribute tier (lines 459-477) over the patterns
`id=`, `placeholder=`, `name=`, in that order. -/
def attrTier (page : List Elem) (desc : String) : List String → Option Elem
  | [] => none
  | a :: rest =>
    match searchAttrVal a desc with
    | none => attrTier page desc rest
    | some v =>
      match firstDisplayedEnabled
          (page.filter (fun e => e.attr a == some v)) with
      | some e => some e
      | none => attrTier page desc rest

/-- The dictionary-based de-duplication of `_get_interactive_elements`
(lines 180-185): key order is first insertion, value is the last write. -/
def upsertByXpath (acc : List Elem) (e : Elem) : List Elem :=
  if acc.any (fun x => x.xpath == e.xpath) then
    acc.map (fun x => if x.xpath == e.xpath then e else x)
  else acc ++ [e]

/-- Model of `ElementFinder._get_interactive_elements` (lines 157-185): per
selector, the first five raw matches filtered to displayed ones; then
de-duplicated by locator and capped at twenty. -/
def get_interactive_elements (page : List Elem) : List Elem :=
  (((interactiveSelectors.foldl
      (fun acc sel => acc ++ ((page.filter sel).take 5).filter (fun e => e.displayed))
      []).foldl upsertByXpath []).take 20)

/-- The final fallback (lines 479-488): re-resolve each of the first
five interactive descriptors by locator and return the first displayed,
enabled one. -/
def fallbackGo (page : List Elem) : List Elem → Option Elem
  | [] => none
  | d :: rest =>
    match page.find? (fun e => e.xpath == d.xpath) with
    | some e => if e.displayed && e.enabled then some e else fallbackGo page rest
    | none => fallbackGo page rest

/-- Model of `ElementFinder.find_element_by_description` (lines 389-495).
Total; the source's blanket `except` clauses mean every failure path
ends in `None`, never in a raised exception. -/
def find_element_by_description (page : List Elem) (description : String) :
    Option Elem :=
  let dl := pyLower description
  let keywordTier : Option Elem :=
    if strContains dl "поиск" || strContains dl "search" then
      tierBySelectors page searchSelectors
    else if strContains dl "кнопка" || strContains dl "button" then
      buttonTier page buttonSelectors
    else none
  match keywordTier with
  | some e => some e
  | none =>
    match
      (match searchTextLit description with
       | some lit => textTier page lit
       | none => none) with
    | some e => some e
    | none =>
      match attrTier page description ["id", "placeholder", "name"] with
      | some e => some e
      | none => fallbackGo page ((get_interactive_elements page).take 5)

/-! ### ReflectionPattern (src/patterns/reflection_pattern.py)

The decision-source call is an `Except` argument (`.error` when
`generate` raised).  The two labeled-section regex extractors
(`_extract_correction_plan`, `_extract_lesson`) matter to no claim and
enter as function arguments. -/

/-- The `ReflectionResult` dataclass (lines 5-11). -/
structure ReflectionResult where
  needs_correction : Bool
  correction_plan : Option String := none
  learned_lesson : Option String := none
  confidence_score : ℚ := 1

/-- One recorded action as `analyze_failure` reads it: the
`action_description` value and the `result` dictionary of an
`ActionRecord`. -/
structure ReflAction where
  description : Option String
  result : JObj

/-- The failure test of lines 27-29:
`not action.get('result', {}).get('success', False)`. -/
def reflFailed (a : ReflAction) : Bool :=
  !(pyTruthy ((dget a.result "success").getD (.bool false)))

/-- Model of `ReflectionPattern._detect_correction_needed` (lines 164-177). -/
def detect_correction_needed (analysis : String) : Bool :=
  let lower := pyLower analysis
  ["нужно", "следует", "рекомендуется", "необходимо",
   "исправьте", "попробуйте", "измените", "скорректируйте",
   "ошибка", "неправильно", "неверно"].any (fun w => strContains lower w)

/-- Model of `ReflectionPattern._calculate_confidence` (lines 216-240). -/
def calculate_confidence (analysis : String) (failure_count : ℕ) : ℚ :=
  let c : ℚ := 1
  let c := if 3 < failure_count then c * ((7 : ℚ) / 10) else c
  let lower := pyLower analysis
  let c := ["возможно", "может быть", "вероятно", "скорее всего"].foldl
    (fun acc w => if strContains lower w then acc * ((9 : ℚ) / 10) else acc) c
  let c := ["точно", "определенно", "несомненно", "очевидно"].foldl
    (fun acc w => if strContains lower w then acc * ((11 : ℚ) / 10) else acc) c
  max ((1 : ℚ) / 10) (min 1 c)

/-- Model of `ReflectionPattern.analyze_failure` (lines 19-96).  Returns the
result together with whether the decision source was called at all. -/
def analyze_failure (extractPlan extractLesson : String → Option String)
    (action_history : List ReflAction) (llmResp : Except Unit String) :
    ReflectionResult × Bool :=
  let window := action_history.drop (action_history.length - 5)
  let recent_failures := window.filter reflFailed
  if recent_failures.isEmpty then
    ({ needs_correction := false }, false)
  else
    match llmResp with
    | .error _ => ({ needs_correction := false }, true)
    | .ok analysis =>
      ({ needs_correction := detect_correction_needed analysis,
         correction_plan := extractPlan analysis,
         learned_lesson := extractLesson analysis,
         confidence_score := calculate_confidence analysis recent_failures.length },
       true)

/-! ### TaskController (`BrowserAgent._execute_task_loop`,
src/agents/browser_agent.py lines 131-255)

The loop is a state machine over the step counter, the bounded action
history (a `deque(maxlen=100)`), the accumulated system-context lines
and the trace of reflection invocations.  Collaborator behaviour enters
as streams indexed by the step number: `decide n` is what
`decide_next_action` returned on step `n` (`none` when it returned
`None`), and `browserExec n` is the dictionary
`ActionTools.execute_action` returned on step `n` — that call is total
(its `getattr` and method invocation sit inside one `except`, claim
C10), whereas the in-process handlers for `analyze`/`complete`/
`ask_human`/`wait` are computed from the decision itself, including
their raising paths (`parameters.get` on a non-dictionary,
`time.sleep` on a non-numeric or negative value, an unhashable action
tag reaching `ACTION_MAPPING.get`).  An exception there is caught by
the loop's one `try` and ends the run as `Failed` before any record is
appended.

The configuration is read through exactly the two attributes the agent
uses, `config.MAX_STEPS` and `config.ENABLE_REFLECTION`.  The project's
own `Config` dataclass (src/config.py lines 4-29) defines no
`ENABLE_REFLECTION` field, so reading it raises `AttributeError`; the
field is therefore an `Option Bool`, with `none` standing for the
absent attribute and sending the loop into its `except` branch.

When the reflection cadence does fire, `_perform_reflection` hands
`get_recent_actions`' list of `ActionRecord` dataclass objects to
`analyze_failure`, whose failure scan calls `action.get(...)` on them
(src/patterns/reflection_pattern.py line 29, before its `try`); an
`ActionRecord` has no `get`, and the window is never empty at that
point, so the call always raises `AttributeError` and the run ends
`Failed` — the engine is invoked, but no result ever returns. -/

/-- The configuration attributes `BrowserAgent` reads. -/
structure AgentConfig where
  MAX_STEPS : ℕ
  ENABLE_REFLECTION : Option Bool

/-- Model of `Config()` from src/config.py: `MAX_STEPS = 8` and no
`ENABLE_REFLECTION` attribute. -/
def repoConfig : AgentConfig := { MAX_STEPS := 8, ENABLE_REFLECTION := none }

/-- The `AttributeError` the repo's config raises at
src/agents/browser_agent.py line 203 (message abbreviated; Python's
`str(e)` names the missing attribute the same way). -/
def enableReflectionAttrError : String :=
  "AttributeError: ENABLE_REFLECTION"

/-- The page state consumed at the end of the run (`url`, `title`,
`page_type` of `browser.get_page_state()`). -/
structure PageState where
  url : String
  title : String
  page_type : String

/-- The slice of an `ActionRecord` that survives into the episode
(lines 233-239). -/
structure LoopRecord where
  action_type : Json
  action_description : Json
  result : JObj

/-- The terminal result dictionaries of `_execute_task_loop`:
`Completed` (lines 183-188), `NeedsHumanInput` (lines 194-199),
step limit (lines 213-218), and the `except` branch (lines 221-226). -/
inductive RunOutcome where
  | completed (steps : ℕ)
  | needsHuman (question : Option Json) (currentStep : ℕ)
  | stepLimit (steps maxSteps : ℕ)
  | errored (error : String) (steps : ℕ)

/-- Model of `final_result.get("success", False)`. -/
def RunOutcome.successFlag : RunOutcome → Bool
  | .completed _ => true
  | _ => false

/-- The step count the terminal dictionary reports. -/
def RunOutcome.reportedSteps : RunOutcome → ℕ
  | .completed n => n
  | .needsHuman _ n => n
  | .stepLimit n _ => n
  | .errored _ n => n

/-- The mutable state of the loop. -/
structure LoopSt where
  step : ℕ
  history : List LoopRecord
  sys : List String
  reflSteps : List ℕ

/-- Append to the `deque(maxlen=100)` action history
(src/memory/context_manager.py line 44). -/
def pushHistory (h : List LoopRecord) (r : LoopRecord) : List LoopRecord :=
  if h.length < 100 then h ++ [r] else h.drop 1 ++ [r]

/-- Python `action_decision.get("action") == s`. -/
def isAction (d : JObj) (s : String) : Bool :=
  match dget d "action" with
  | some (.str t) => t == s
  | _ => false

/-- The guidance line `_perform_reflection` would append
(lines 415-417): `reflection.learned_lesson or` the default text,
prefixed with the lesson marker.  Unreachable in any run, because the
`analyze_failure` call above it always raises first (see the section
comment); kept as the model of those source lines. -/
def lessonText (r : ReflectionResult) : String :=
  "Урок из рефлексии: " ++
    (match r.learned_lesson with
     | some s => if s.isEmpty then "Требуется изменить подход" else s
     | none => "Требуется изменить подход")

/-- The `reflection.needs_correction and reflection.correction_plan`
guard (line 411), with Python truthiness on the plan.  Unreachable for
the same reason as `lessonText`. -/
def reflectionInjects (r : ReflectionResult) : Bool :=
  r.needs_correction && pyTruthyStr r.correction_plan

/-- The `AttributeError` raised by `action.get('result', {})` at
src/patterns/reflection_pattern.py line 29 when `_perform_reflection`
passes `ActionRecord` objects (message abbreviated). -/
def reflectionCallAttrError : String := "AttributeError: get"

/-- Model of `BrowserAgent._execute_action` (src/agents/browser_agent.py
lines 347-390): the four in-process handlers with their raising paths,
then the `ActionTools.execute_action` dispatch, whose result is the
total `browserExec` oracle (every exception inside it is caught, claim
C10) except for an unhashable action tag, which raises in
`ACTION_MAPPING.get` before that `try`.  `.error` carries an
abbreviated `str` of the exception that the loop's `except` block will
catch. -/
def execDecision (browserExec : ℕ → JObj) (n : ℕ) (d : JObj) :
    Except String JObj :=
  if isAction d "analyze" then
    .ok [("success", .bool true), ("message", .str "Проведен анализ ситуации")]
  else if isAction d "complete" then
    .ok [("success", .bool true),
         ("message", .str "Задача помечена как завершенная")]
  else if isAction d "ask_human" then
    match (dget d "parameters").getD (.obj []) with
    | .obj ps =>
      .ok [("success", .bool true),
           ("message", .str "Запрошена помощь пользователя"),
           ("question",
             (dget ps "question").getD (.str "Требуется помощь пользователя"))]
    | _ => .error "AttributeError: get"
  else if isAction d "wait" then
    match (dget d "parameters").getD (.obj []) with
    | .obj ps =>
      match (dget ps "seconds").getD (.num 2) with
      | .num q =>
        if 0 ≤ q then
          .ok [("success", .bool true),
               ("message", .str ("Подождали " ++ pyStr (some (.num q))
                 ++ " секунд"))]
        else .error "ValueError: sleep length must be non-negative"
      | .bool b =>
        .ok [("success", .bool true),
             ("message", .str ("Подождали " ++ pyStr (some (.bool b))
               ++ " секунд"))]
      | _ => .error "TypeError: an integer is required"
    | _ => .error "AttributeError: get"
  else
    match dget d "action" with
    | some (.arr _) => .error "TypeError: unhashable type"
    | some (.obj _) => .error "TypeError: unhashable type"
    | _ => .ok (browserExec n)

/-- One `while` iteration cascade of `_execute_task_loop`
(lines 141-209), running on the remaining step budget as fuel:
the loop condition `current_step < max_steps` holds exactly while the
fuel is positive.  An exception raised by `_execute_action` lands in
the loop's `except` before `add_action` runs, so the record is only
appended on its success; on the `ask_human` path the parameters are
known to be a dictionary or absent, since a non-dictionary already
raised inside `_execute_action`.  When the reflection cadence fires,
the engine is invoked (recorded in `reflSteps`) and the run aborts with
the `AttributeError` described in the section comment. -/
def loopGo (cfg : AgentConfig) (decide : ℕ → Option JObj)
    (browserExec : ℕ → JObj) :
    ℕ → LoopSt → RunOutcome × LoopSt
  | 0, st => (.stepLimit st.step cfg.MAX_STEPS, st)
  | fuel + 1, st =>
    let n := st.step + 1
    match decide n with
    | none => (.stepLimit n cfg.MAX_STEPS, { st with step := n })
    | some d =>
      match execDecision browserExec n d with
      | .error e => (.errored e n, { st with step := n })
      | .ok res =>
        let record : LoopRecord :=
          { action_type := (dget d "action").getD (.str "unknown"),
            action_description := (dget d "description").getD (.str ""),
            result := res }
        let st1 : LoopSt :=
          { st with step := n, history := pushHistory st.history record }
        if isAction d "complete" then
          (.completed n, st1)
        else if isAction d "ask_human" then
          (.needsHuman
            (match dget d "parameters" with
             | some (.obj ps) => dget ps "question"
             | _ => none) n, st1)
        else
          match cfg.ENABLE_REFLECTION with
          | none => (.errored enableReflectionAttrError n, st1)
          | some flag =>
            if flag && n % 5 == 0 then
              (.errored reflectionCallAttrError n,
               { st1 with reflSteps := st1.reflSteps ++ [n] })
            else
              loopGo cfg decide browserExec fuel st1

/-- The action dictionary the agent hands to `add_episode` for one
record (lines 234-239). -/
def recordToJson (r : LoopRecord) : Json :=
  .obj [("action_type", r.action_type),
        ("action_description", r.action_description),
        ("result", .obj r.result)]

/-- Everything one run produces.  `uncaught` records an exception
escaping the `finally` block's `add_episode`: when it is `some`, the
call raises to its caller and `final_result` is never returned. -/
structure RunTrace where
  outcome : RunOutcome
  history : List LoopRecord
  sysContext : List String
  reflectionSteps : List ℕ
  memAfter : MemoryState
  savedEpisode : Option Episode
  uncaught : Option String

/-- Model of `BrowserAgent._execute_task_loop` end to end
(lines 131-255): run the loop from step 0, then the `finally` block —
when the action history is non-empty, convert it and hand an episode
tagged with the final success flag to the episodic memory store.  The
conversion itself can raise (`_extract_patterns` on malformed records);
then nothing is stored and the exception escapes the whole call. -/
def runTaskLoop (md5 : String → String) (now : String) (cfg : AgentConfig)
    (decide : ℕ → Option JObj) (browserExec : ℕ → JObj)
    (sys0 : List String) (finalState : PageState) (mem : MemoryState) :
    RunTrace :=
  let r := loopGo cfg decide browserExec cfg.MAX_STEPS
    { step := 0, history := [], sys := sys0, reflSteps := [] }
  let outcome := r.1
  let st := r.2
  match st.history with
  | [] =>
    { outcome := outcome, history := st.history, sysContext := st.sys,
      reflectionSteps := st.reflSteps, memAfter := mem,
      savedEpisode := none, uncaught := none }
  | _ :: _ =>
    match add_episode md5 now mem finalState.url finalState.title
        finalState.page_type (st.history.map recordToJson)
        outcome.successFlag with
    | .ok p =>
      { outcome := outcome, history := st.history, sysContext := st.sys,
        reflectionSteps := st.reflSteps, memAfter := p.1,
        savedEpisode := some p.2, uncaught := none }
    | .error e =>
      { outcome := outcome, history := st.history, sysContext := st.sys,
        reflectionSteps := st.reflSteps, memAfter := mem,
        savedEpisode := none, uncaught := some e }

/-! ### Concrete instances used by witnesses and counterexamples -/

/-- A plain navigation decision: neither `complete` nor `ask_human`. -/
def navDecision : JObj :=
  [("action", .str "navigate"), ("description", .str "Перейти на страницу")]

/-- A decision stream that always produces the navigation decision. -/
def navStream : ℕ → Option JObj := fun _ => some navDecision

/-- A decision stream on which `decide_next_action` returned `None`
at every step (the decision source raised). -/
def noneStream : ℕ → Option JObj := fun _ => none

/-- A browser-dispatch oracle of plain successes. -/
def okExec : ℕ → JObj := fun _ => [("success", .bool true)]

/-- A produced, recognized `wait` decision whose `seconds` parameter is
a string: `time.sleep` raises on it. -/
def waitBadDecision : JObj :=
  [("action", .str "wait"), ("description", .str "Подождать"),
   ("parameters", .obj [("seconds", .str "abc")])]

/-- A decision stream of the malformed wait decision. -/
def waitBadStream : ℕ → Option JObj := fun _ => some waitBadDecision

/-- A navigation decision whose description is a number, so the stored
record's `action_description` is not a string and pattern mining
raises on it. -/
def badDescDecision : JObj :=
  [("action", .str "navigate"), ("description", .num 5)]

/-- A decision stream of the bad-description decision. -/
def badDescStream : ℕ → Option JObj := fun _ => some badDescDecision

/-- The record the loop stores for each `navDecision` step under
`okExec`. -/
def recW : LoopRecord :=
  { action_type := .str "navigate",
    action_description := .str "Перейти на страницу",
    result := [("success", .bool true)] }

/-- The page state at run end, for the stored episode. -/
def pageW : PageState :=
  { url := "https://example.com", title := "Example", page_type := "general" }

/-- The empty episodic memory. -/
def mem0 : MemoryState := { episodes := [], patterns := [] }

/-- The identity digest, standing in for the md5 oracle. -/
def idDigest : String → String := fun s => s

/-- A configuration with a zero step budget and the reflection flag
present. -/
def cfg0W : AgentConfig := { MAX_STEPS := 0, ENABLE_REFLECTION := some true }

/-- A two-step budget with the reflection flag present. -/
def cfg2W : AgentConfig := { MAX_STEPS := 2, ENABLE_REFLECTION := some true }

/-- A three-step budget with the reflection flag present. -/
def cfg3W : AgentConfig := { MAX_STEPS := 3, ENABLE_REFLECTION := some true }

/-- A six-step budget with reflection enabled. -/
def cfg6W : AgentConfig := { MAX_STEPS := 6, ENABLE_REFLECTION := some true }

/-- A visible, enabled anchor that is the page's first interactive
element. -/
def elemA : Elem :=
  { tag := "a", attrs := [], text := "Другая ссылка",
    displayed := true, enabled := true, xpath := "/html/body/a[1]" }

/-- A visible, enabled element whose text is exactly the quoted
literal of `descQuoted`, but which matches no interactive selector. -/
def elemB : Elem :=
  { tag := "span", attrs := [], text := "Submit",
    displayed := true, enabled := true, xpath := "/html/body/span[1]" }

/-- The two-element page of the resolver counterexample. -/
def pageAB : List Elem := [elemA, elemB]

/-- A description holding a quoted literal but no `текст:` marker and
no keyword of the earlier tiers. -/
def descQuoted : String := "элемент \"Submit\""

/-- A visible, enabled element for the resolver witness. -/
def elemT : Elem :=
  { tag := "span", attrs := [], text := "Hello",
    displayed := true, enabled := true, xpath := "/html/body/span[2]" }

/-- The one-element page of the resolver witness. -/
def pageT : List Elem := [elemT]

/-- A description carrying the `текст:` marker with a quoted literal. -/
def descT : String := "текст: \"Hello\""

/-- A well-formed parsed decision dictionary lacking `parameters` and
`confidence`. -/
def dictW : JObj :=
  [("action", .str "click"), ("description", .str "Кликнуть по ссылке")]

/-- A one-record history whose only action succeeded. -/
def historyW : List ReflAction :=
  [{ description := some "Перейти на страницу",
     result := [("success", .bool true)] }]

/-- An action with a type outside `ACTION_MAPPING`. -/
def flyAction : Action :=
  { type := "fly", description := "летать", parameters := [] }

/-- A browser oracle that always returns an empty result. -/
def okBrowser : String → JObj → Except String JObj := fun _ _ => .ok []

/-- An episode matching both the url-substring and page-type criteria
of the find-similar witness query, without the success bonus. -/
def epW1 : Episode :=
  { id := "id1", url := "https://shop.example/cart", title := "Cart",
    page_type := "shopping", actions := [], timestamp := "t1",
    success := false, learned_patterns := [] }

/-- An episode matching only the url-substring criterion, with the
success bonus. -/
def epW2 : Episode :=
  { id := "id2", url := "https://shop.example/cart", title := "Cart",
    page_type := "general", actions := [], timestamp := "t2",
    success := true, learned_patterns := [] }

/-! ## Theorems -/

/-! ### Shared helper lemmas -/

/-- Appending one binding: the appended key wins, others unchanged. -/
theorem dget_append_single (l : JObj) (k k' : String) (v : Json) :
    dget (l ++ [(k', v)]) k = if (k' == k) = true then some v else dget l k := by
  unfold dget
  rw [List.filter_append]
  by_cases h : (k' == k) = true
  · have hs : List.filter (fun p => p.1 == k) [(k', v)] = [(k', v)] := by
      simp [List.filter_cons, h]
    rw [hs, List.getLast?_concat, if_pos h]
    rfl
  · have hs : List.filter (fun p => p.1 == k) [(k', v)] = [] := by
      simp [List.filter_cons]
      simpa using h
    rw [hs, List.append_nil, if_neg h]

/-- Appending two bindings: the later one wins, then the earlier. -/
theorem dget_append_pair (l : JObj) (k k1 k2 : String) (v1 v2 : Json) :
    dget (l ++ [(k1, v1), (k2, v2)]) k =
      if (k2 == k) = true then some v2
      else if (k1 == k) = true then some v1
      else dget l k := by
  have hsplit : l ++ [(k1, v1), (k2, v2)] = (l ++ [(k1, v1)]) ++ [(k2, v2)] := by
    simp
  rw [hsplit, dget_append_single, dget_append_single]

/-! ### C1 — the decision engine degrades instead of returning None -/

/-- C1: For every decision-source reply, including malformed or empty
text, `decide_next_action` returns a structured action — degrading to
the default `analyze` action with confidence 1.0 and a reasoning note
when no action can be recognized — and returns `None` exactly when the
decision-source call itself raised. -/
theorem decide_total_unless_source_raises (resp : Except Unit BraceParse) :
    (decide_next_action resp = none ↔ resp = .error ()) ∧
    (∀ bp, resp = .ok bp → parse_llm_response bp = none →
      decide_next_action resp = some defaultAnalyzeDecision) ∧
    dget defaultAnalyzeDecision "action" = some (.str "analyze") ∧
    dget defaultAnalyzeDecision "confidence" = some (.num 1) ∧
    dget defaultAnalyzeDecision "reasoning" =
      some (.str "Не удалось распознать следующее действие") := by
  refine ⟨?_, ?_, rfl, rfl, rfl⟩
  · cases resp with
    | error e => cases e; simp [decide_next_action]
    | ok bp =>
      cases h : parse_llm_response bp <;> simp [decide_next_action, h]
  · intro bp hbp hparse
    subst hbp
    simp [decide_next_action, hparse]

/-- Witness for C1 at a reply with no brace-delimited substring. -/
theorem decide_total_unless_source_raises_witness :
    decide_next_action (.ok .noMatch) = some defaultAnalyzeDecision :=
  (decide_total_unless_source_raises (.ok .noMatch)).2.1 .noMatch rfl rfl

/-! ### C8 — structural parse requirements and defaults -/

/-- C8: A structurally parsed brace-delimited reply parses successfully
iff both an action tag and a description are present; on success,
`parameters` defaults to the empty mapping and `confidence` to 0.8 when
absent, and present fields are preserved. -/
theorem parse_requires_action_and_description (dict : JObj) :
    ((parse_llm_response (.ok dict)).isSome = true ↔
      (dget dict "action").isSome = true ∧
        (dget dict "description").isSome = true) ∧
    (∀ r, parse_llm_response (.ok dict) = some r →
      (dget dict "parameters" = none → dget r "parameters" = some (.obj [])) ∧
      (dget dict "confidence" = none →
        dget r "confidence" = some (.num ((8 : ℚ) / 10))) ∧
      (∀ v, dget dict "parameters" = some v → dget r "parameters" = some v) ∧
      (∀ v, dget dict "confidence" = some v → dget r "confidence" = some v) ∧
      dget r "action" = dget dict "action" ∧
      dget r "description" = dget dict "description") := by
  have hpc : (("parameters" : String) == "confidence") = false := by decide
  have hcp : (("confidence" : String) == "parameters") = false := by decide
  have hpa : (("parameters" : String) == "action") = false := by decide
  have hca : (("confidence" : String) == "action") = false := by decide
  have hpd : (("parameters" : String) == "description") = false := by decide
  have hcd : (("confidence" : String) == "description") = false := by decide
  have hpp : (("parameters" : String) == "parameters") = true := by decide
  have hcc : (("confidence" : String) == "confidence") = true := by decide
  constructor
  · cases hA : dget dict "action" with
    | none => simp [parse_llm_response, hA]
    | some a =>
      cases hD : dget dict "description" with
      | none => simp [parse_llm_response, hA, hD]
      | some dsc => simp [parse_llm_response, hA, hD]
  · intro r hr
    cases hA : dget dict "action" with
    | none => simp [parse_llm_response, hA] at hr
    | some a =>
      cases hD : dget dict "description" with
      | none => simp [parse_llm_response, hA, hD] at hr
      | some dsc =>
        have hd1conf :
            dget (dict ++ [("parameters", Json.obj [])]) "confidence"
              = dget dict "confidence" := by
          rw [dget_append_single]
          simp [hpc]
        by_cases hp : dget dict "parameters" = none
        · by_cases hc : dget dict "confidence" = none
          · simp [parse_llm_response, hA, hD, hp, hc, hd1conf] at hr
            subst hr
            have e1 : dget (dict ++ [("parameters", Json.obj []),
                ("confidence", Json.num ((8 : ℚ) / 10))]) "parameters"
                = some (Json.obj []) := by
              rw [dget_append_pair]; simp [hcp, hpp]
            have e2 : dget (dict ++ [("parameters", Json.obj []),
                ("confidence", Json.num ((8 : ℚ) / 10))]) "confidence"
                = some (Json.num ((8 : ℚ) / 10)) := by
              rw [dget_append_pair]; simp [hcc]
            have e3 : dget (dict ++ [("parameters", Json.obj []),
                ("confidence", Json.num ((8 : ℚ) / 10))]) "action"
                = dget dict "action" := by
              rw [dget_append_pair]; simp [hca, hpa]
            have e4 : dget (dict ++ [("parameters", Json.obj []),
                ("confidence", Json.num ((8 : ℚ) / 10))]) "description"
                = dget dict "description" := by
              rw [dget_append_pair]; simp [hcd, hpd]
            exact ⟨fun _ => e1, fun _ => e2,
              fun v hv => by rw [hp] at hv; exact Option.noConfusion hv,
              fun v hv => by rw [hc] at hv; exact Option.noConfusion hv,
              e3.trans hA, e4.trans hD⟩
          · rcases hcv : dget dict "confidence" with _ | cv
            · exact absurd hcv hc
            simp [parse_llm_response, hA, hD, hp, hcv, hd1conf] at hr
            subst hr
            have e1 : dget (dict ++ [("parameters", Json.obj [])]) "parameters"
                = some (Json.obj []) := by
              rw [dget_append_single]; simp [hpp]
            have e3 : dget (dict ++ [("parameters", Json.obj [])]) "action"
                = dget dict "action" := by
              rw [dget_append_single]; simp [hpa]
            have e4 : dget (dict ++ [("parameters", Json.obj [])]) "description"
                = dget dict "description" := by
              rw [dget_append_single]; simp [hpd]
            exact ⟨fun _ => e1, fun h => Option.noConfusion h,
              fun v hv => by rw [hp] at hv; exact Option.noConfusion hv,
              fun v hv => by rw [hd1conf, hcv]; exact hv,
              e3.trans hA, e4.trans hD⟩
        · rcases hpv : dget dict "parameters" with _ | pv
          · exact absurd hpv hp
          by_cases hc : dget dict "confidence" = none
          · simp [parse_llm_response, hA, hD, hpv, hc] at hr
            subst hr
            have e2 : dget (dict ++ [("confidence", Json.num ((8 : ℚ) / 10))])
                "confidence" = some (Json.num ((8 : ℚ) / 10)) := by
              rw [dget_append_single]; simp [hcc]
            have epar : dget (dict ++ [("confidence", Json.num ((8 : ℚ) / 10))])
                "parameters" = dget dict "parameters" := by
              rw [dget_append_single]; simp [hcp]
            have e3 : dget (dict ++ [("confidence", Json.num ((8 : ℚ) / 10))])
                "action" = dget dict "action" := by
              rw [dget_append_single]; simp [hca]
            have e4 : dget (dict ++ [("confidence", Json.num ((8 : ℚ) / 10))])
                "description" = dget dict "description" := by
              rw [dget_append_single]; simp [hcd]
            exact ⟨fun h => Option.noConfusion h, fun _ => e2,
              fun v hv => by rw [epar, hpv]; exact hv,
              fun v hv => by rw [hc] at hv; exact Option.noConfusion hv,
              e3.trans hA, e4.trans hD⟩
          · rcases hcv : dget dict "confidence" with _ | cv
            · exact absurd hcv hc
            simp [parse_llm_response, hA, hD, hpv, hcv] at hr
            subst hr
            exact ⟨fun h => Option.noConfusion h, fun h => Option.noConfusion h,
              fun v hv => by rw [hpv]; exact hv,
              fun v hv => by rw [hcv]; exact hv,
              hA, hD⟩

/-- Witness for C8 at a dictionary lacking both optional fields. -/
theorem parse_requires_action_and_description_witness :
    dget (dictW ++ [("parameters", Json.obj [])]
      ++ [("confidence", Json.num ((8 : ℚ) / 10))]) "parameters"
      = some (.obj []) :=
  ((parse_requires_action_and_description dictW).2 _ rfl).1 rfl

/-! ### C10 — execute_action is total and converts faults to results -/

/-- C10: `ActionTools.execute_action` is a total function (the
embedding itself: no exception escapes); an action type outside
`ACTION_MAPPING` yields the unknown-type failure dictionary, and a
raising browser method yields a failure dictionary carrying the
exception string and a message. -/
theorem execute_action_total_and_fault_tolerant
    (browser : String → JObj → Except String JObj) (a : Action) :
    (mappingGet a.type = none →
      execute_action browser a =
        [("success", .bool false),
         ("error", .str ("Unknown action type: " ++ a.type)),
         ("message", .str ("Неизвестный тип действия: " ++ a.type))]) ∧
    (∀ m e, mappingGet a.type = some m → browser m a.parameters = .error e →
      dget (execute_action browser a) "success" = some (.bool false) ∧
      dget (execute_action browser a) "error" = some (.str e) ∧
      dget (execute_action browser a) "message" =
        some (.str ("Ошибка при выполнении действия: " ++ a.type))) := by
  constructor
  · intro h
    simp [execute_action, h]
  · intro m e hm he
    simp only [execute_action, hm, he]
    exact ⟨rfl, rfl, rfl⟩

/-- Witness for C10 at an unmapped action type. -/
theorem execute_action_total_and_fault_tolerant_witness :
    execute_action okBrowser flyAction =
      [("success", .bool false),
       ("error", .str ("Unknown action type: " ++ "fly")),
       ("message", .str ("Неизвестный тип действия: " ++ "fly"))] :=
  (execute_action_total_and_fault_tolerant okBrowser flyAction).1 rfl

/-! ### C9 — reflection without recent failures is silent -/

/-- C9: When the last-5 window of the action history holds no failed
action, `analyze_failure` returns `needs_correction = false` and the
decision source is not called (the second component of the result
records whether the call was made). -/
theorem analyze_failure_skips_without_failures
    (extractPlan extractLesson : String → Option String)
    (history : List ReflAction) (resp : Except Unit String)
    (h : ∀ a ∈ history.drop (history.length - 5), reflFailed a = false) :
    analyze_failure extractPlan extractLesson history resp
      = ({ needs_correction := false }, false) := by
  unfold analyze_failure
  have hf : (history.drop (history.length - 5)).filter reflFailed = [] :=
    List.filter_eq_nil_iff.mpr (fun a ha => by simp [h a ha])
  simp [hf]

/-- Witness for C9 at a one-success history. -/
theorem analyze_failure_skips_without_failures_witness :
    analyze_failure (fun _ => none) (fun _ => none) historyW
      (.ok "Ошибок нет") = ({ needs_correction := false }, false) :=
  analyze_failure_skips_without_failures (fun _ => none) (fun _ => none)
    historyW (.ok "Ошибок нет") (by decide)

/-! ### C7 — persistence round trip -/

/-- Decoding an encoded string list is the identity. -/
theorem decodeStrList_map (l : List String) :
    decodeStrList (l.map Json.str) = some l := by
  induction l with
  | nil => rfl
  | cons a rest ih => simp [decodeStrList, ih]

/-- Decoding an encoded episode recovers it, every field included. -/
theorem episodeOfJson_toJson (e : Episode) :
    episodeOfJson (episodeToJson e) = some e := by
  cases e with
  | mk id url title pt actions ts success lp =>
    simp [episodeToJson, episodeOfJson, dget, decodeStrList_map]

/-- Decoding an encoded episode list recovers it. -/
theorem episodesOfJson_map (l : List Episode) :
    episodesOfJson (l.map episodeToJson) = some l := by
  induction l with
  | nil => rfl
  | cons e rest ih => simp [episodesOfJson, episodeOfJson_toJson, ih]

/-- Decoding an encoded pattern count recovers it. -/
theorem decodeCount_natCast (n : ℕ) : decodeCount (.num (n : ℚ)) = some n := by
  have h1 : ((n : ℚ)).den = 1 := Rat.den_natCast n
  have h2 : (0 : ℤ) ≤ ((n : ℚ)).num := by simp
  simp [decodeCount, h1, h2]

/-- Decoding an encoded pattern table recovers it. -/
theorem patternsOfJson_toJson (t : List (String × ℕ)) :
    patternsOfJson (patternsToJson t) = some t := by
  induction t with
  | nil => rfl
  | cons p rest ih =>
    simp [patternsToJson] at ih
    simp [patternsToJson, patternsOfJson, decodeCount_natCast, ih]

/-- C7: Saving the episodic store and loading it back yields the same
episode list and the same pattern-frequency table, for all fields of
every episode (serialization is lossless). -/
theorem save_load_round_trip (m : MemoryState) :
    loadMemory (saveMemory m) = some m := by
  simp [saveMemory, loadMemory, dget, episodesOfJson_map, patternsOfJson_toJson]

/-! ### C4 — find_similar scoring, ordering, stability, monotonicity -/

/-- Stable descending insertion permutes to consing. -/
theorem insertDesc_perm (key : α → ℕ) (x : α) (l : List α) :
    List.Perm (insertDesc key x l) (x :: l) := by
  induction l with
  | nil => exact List.Perm.refl _
  | cons y ys ih =>
    by_cases h : key y ≤ key x
    · simp [insertDesc, h]
    · simp only [insertDesc, if_neg h]
      exact (List.Perm.cons y ih).trans (List.Perm.swap x y ys)

/-- The stable descending sort is a permutation of its input. -/
theorem sortDesc_perm (key : α → ℕ) (l : List α) :
    List.Perm (sortDesc key l) l := by
  induction l with
  | nil => exact List.Perm.refl _
  | cons x xs ih =>
    exact (insertDesc_perm key x (sortDesc key xs)).trans (List.Perm.cons x ih)

/-- Insertion preserves descending sortedness. -/
theorem insertDesc_pairwise (key : α → ℕ) (x : α) (l : List α)
    (h : l.Pairwise (fun a b => key b ≤ key a)) :
    (insertDesc key x l).Pairwise (fun a b => key b ≤ key a) := by
  induction l with
  | nil => simp [insertDesc]
  | cons y ys ih =>
    obtain ⟨hy, hys⟩ := List.pairwise_cons.mp h
    by_cases hxy : key y ≤ key x
    · simp only [insertDesc, if_pos hxy]
      refine List.pairwise_cons.mpr ⟨?_, h⟩
      intro b hb
      rcases List.mem_cons.mp hb with hb | hb
      · subst hb; exact hxy
      · exact le_trans (hy b hb) hxy
    · simp only [insertDesc, if_neg hxy]
      refine List.pairwise_cons.mpr ⟨?_, ih hys⟩
      intro b hb
      rcases List.mem_cons.mp ((insertDesc_perm key x ys).mem_iff.mp hb) with hb | hb
      · subst hb; omega
      · exact hy b hb

/-- The stable descending sort is descending-sorted. -/
theorem sortDesc_pairwise (key : α → ℕ) (l : List α) :
    (sortDesc key l).Pairwise (fun a b => key b ≤ key a) := by
  induction l with
  | nil => simp [sortDesc]
  | cons x xs ih => exact insertDesc_pairwise key x (sortDesc key xs) ih

/-- Inserting an element of key `s` prepends it to the key-`s`
subsequence: everything it passes over has a strictly larger key. -/
theorem insertDesc_filter_eq (key : α → ℕ) (x : α) (l : List α) (s : ℕ)
    (hx : key x = s) :
    (insertDesc key x l).filter (fun a => key a == s)
      = x :: l.filter (fun a => key a == s) := by
  induction l with
  | nil => simp [insertDesc, hx]
  | cons y ys ih =>
    by_cases hxy : key y ≤ key x
    · simp only [insertDesc, if_pos hxy, List.filter_cons]
      simp [hx]
    · have hy : (key y == s) = false := by
        subst hx
        simp only [beq_eq_false_iff_ne, ne_eq]
        omega
      simp only [insertDesc, if_neg hxy, List.filter_cons, hy]
      simp only [Bool.false_eq_true, if_false, ih]

/-- Inserting an element of another key leaves the key-`s` subsequence
unchanged. -/
theorem insertDesc_filter_ne (key : α → ℕ) (x : α) (l : List α) (s : ℕ)
    (hx : key x ≠ s) :
    (insertDesc key x l).filter (fun a => key a == s)
      = l.filter (fun a => key a == s) := by
  induction l with
  | nil => simp [insertDesc, hx]
  | cons y ys ih =>
    by_cases hxy : key y ≤ key x
    · simp [insertDesc, hxy, List.filter_cons, hx]
    · simp only [insertDesc, if_neg hxy, List.filter_cons, ih]

/-- Stability: sorting preserves each equal-key subsequence in its
original order. -/
theorem sortDesc_filter (key : α → ℕ) (l : List α) (s : ℕ) :
    (sortDesc key l).filter (fun a => key a == s)
      = l.filter (fun a => key a == s) := by
  induction l with
  | nil => rfl
  | cons x xs ih =>
    by_cases hx : key x = s
    · simp only [sortDesc, insertDesc_filter_eq key x (sortDesc key xs) s hx, ih,
        List.filter_cons]
      simp [hx]
    · simp only [sortDesc, insertDesc_filter_ne key x (sortDesc key xs) s hx, ih,
        List.filter_cons]
      simp [hx]

/-- C4: `find_similar_episodes` returns only positively scored stored
episodes, in descending score order, taking exactly the
`min`-truncated count; the underlying sort preserves insertion order
inside every equal-score class; and an episode matching both the
url-substring and page-type criteria never scores below one not
matching both. -/
theorem find_similar_scoring (url page_type : Option String) (k : ℕ)
    (eps : List Episode) :
    (∀ e ∈ find_similar_episodes url page_type k eps,
        e ∈ eps ∧ 0 < epScore url page_type e) ∧
    (find_similar_episodes url page_type k eps).Pairwise
        (fun a b => epScore url page_type b ≤ epScore url page_type a) ∧
    (find_similar_episodes url page_type k eps).length
        = min (eps.filter (fun e => 0 < epScore url page_type e)).length k ∧
    (∀ s, (findSimilarSorted url page_type eps).filter
            (fun e => epScore url page_type e == s)
        = (eps.filter (fun e => 0 < epScore url page_type e)).filter
            (fun e => epScore url page_type e == s)) ∧
    (∀ e1 e2, urlHit url e1 = true → ptHit page_type e1 = true →
      ¬(urlHit url e2 = true ∧ ptHit page_type e2 = true) →
      epScore url page_type e2 ≤ epScore url page_type e1) := by
  refine ⟨?_, ?_, ?_, ?_, ?_⟩
  · intro e he
    have h1 : e ∈ findSimilarSorted url page_type eps :=
      List.mem_of_mem_take he
    have h2 : e ∈ eps.filter (fun e => 0 < epScore url page_type e) :=
      (sortDesc_perm _ _).mem_iff.mp h1
    have h3 := List.mem_filter.mp h2
    exact ⟨h3.1, by simpa using h3.2⟩
  · exact (sortDesc_pairwise _ _).sublist (List.take_sublist _ _)
  · rw [find_similar_episodes, List.length_take, findSimilarSorted,
      (sortDesc_perm _ _).length_eq, Nat.min_comm]
  · intro s
    exact sortDesc_filter _ _ s
  · intro e1 e2 h1 h2 h3
    by_cases hu : urlHit url e2 = true
    · by_cases hp2 : ptHit page_type e2 = true
      · exact absurd ⟨hu, hp2⟩ h3
      · simp only [epScore, h1, h2, hu, hp2, if_true, if_false,
          Bool.false_eq_true]
        split_ifs <;> omega
    · by_cases hp2 : ptHit page_type e2 = true <;>
      · simp only [epScore, h1, h2, hu, hp2, if_true, if_false,
          Bool.false_eq_true]
        split_ifs <;> omega

/-- Witness for C4: a dual-criteria episode without the success bonus
still scores at least a url-only episode with it. -/
theorem find_similar_scoring_witness :
    epScore (some "shop.example") (some "shopping") epW2
      ≤ epScore (some "shop.example") (some "shopping") epW1 :=
  (find_similar_scoring (some "shop.example") (some "shopping") 5
      [epW1, epW2]).2.2.2.2 epW1 epW2 rfl rfl
    (by intro h; exact absurd h.2 (by decide))

/-! ### C5 — element resolution by quoted literal -/

/-- Running `find?` over a filtered list combines the predicates. -/
theorem find?_filter_comb (l : List α) (p q : α → Bool) :
    (l.filter p).find? q = l.find? (fun a => p a && q a) := by
  induction l with
  | nil => rfl
  | cons x xs ih =>
    by_cases hp : p x = true
    · by_cases hq : q x = true
      · simp [List.filter_cons, hp, List.find?_cons, hq]
      · simp [List.filter_cons, hp, List.find?_cons, hq, ih]
    · simp [List.filter_cons, hp, List.find?_cons, ih]

/-- The `find?` of a list is the head of its filtered list. -/
theorem find?_eq_head_filter (l : List α) (p : α → Bool) :
    l.find? p = (l.filter p).head? := by
  induction l with
  | nil => rfl
  | cons x xs ih =>
    by_cases hp : p x = true
    · simp [List.filter_cons, List.find?_cons, hp]
    · have hp' : p x = false := by simpa using hp
      simp only [List.find?_cons, List.filter_cons, hp', Bool.false_eq_true,
        if_false, ih]

/-- The quoted-text tier returns the unique matching visible, enabled
element. -/
theorem textTier_of_unique (page : List Elem) (lit : String) (b : Elem)
    (hone : page.filter (fun e =>
        (e.text == lit || strContains e.text lit)
        && (e.displayed && e.enabled)) = [b]) :
    textTier page lit = some b := by
  rw [textTier, firstDisplayedEnabled, find?_filter_comb,
    find?_eq_head_filter, hone]
  rfl

/-- With no displayed element, no candidate scan finds anything. -/
theorem firstDisplayedEnabled_none (page els : List Elem)
    (h : ∀ e ∈ page, e.displayed = false) (hsub : ∀ e ∈ els, e ∈ page) :
    firstDisplayedEnabled els = none :=
  List.find?_eq_none.mpr (fun e he => by simp [h e (hsub e he)])

/-- With no displayed element, every selector tier fails. -/
theorem tierBySelectors_none (page : List Elem)
    (h : ∀ e ∈ page, e.displayed = false) :
    ∀ sels, tierBySelectors page sels = none := by
  intro sels
  induction sels with
  | nil => rfl
  | cons sel rest ih =>
    rw [tierBySelectors,
      firstDisplayedEnabled_none page _ h
        (fun e he => (List.mem_filter.mp he).1), ih]

/-- With no displayed element, the button tier fails. -/
theorem buttonTier_none (page : List Elem)
    (h : ∀ e ∈ page, e.displayed = false) :
    ∀ sels, buttonTier page sels = none := by
  intro sels
  induction sels with
  | nil => rfl
  | cons sel rest ih =>
    rw [buttonTier]
    have hf : (page.filter sel).find?
        (fun e => e.displayed && e.enabled && buttonTextOk e) = none :=
      List.find?_eq_none.mpr (fun e he => by
        simp [h e (List.mem_filter.mp he).1])
    rw [hf, ih]

/-- With no displayed element, the attribute tier fails. -/
theorem attrTier_none (page : List Elem) (desc : String)
    (h : ∀ e ∈ page, e.displayed = false) :
    ∀ attrs, attrTier page desc attrs = none := by
  intro attrs
  induction attrs with
  | nil => rfl
  | cons a rest ih =>
    rw [attrTier]
    cases searchAttrVal a desc with
    | none => exact ih
    | some v =>
      have hfe := firstDisplayedEnabled_none page
        (List.filter (fun e => e.attr a == some v) page) h
        (fun e he => (List.mem_filter.mp he).1)
      simp only [hfe, ih]

/-- With no displayed element, the interactive fallback fails. -/
theorem fallbackGo_none (page : List Elem)
    (h : ∀ e ∈ page, e.displayed = false) :
    ∀ ds, fallbackGo page ds = none := by
  intro ds
  induction ds with
  | nil => rfl
  | cons d rest ih =>
    rw [fallbackGo]
    cases hf : page.find? (fun e => e.xpath == d.xpath) with
    | none => exact ih
    | some e =>
      have he : e ∈ page := List.mem_of_find?_eq_some hf
      simp [h e he, ih]

/-- C5 counterexample: the description `элемент "Submit"` carries the
quoted literal `Submit`, which matches exactly one visible, enabled
element (`elemB`), yet the resolver returns `elemA`, the page's first
interactive element — the quoted-literal tier only fires on a
`текст:`-marked literal. -/
theorem quoted_literal_resolution_counterexample :
    pageAB.filter (fun e =>
        (e.text == "Submit" || strContains e.text "Submit")
        && (e.displayed && e.enabled)) = [elemB] ∧
    find_element_by_description pageAB descQuoted = some elemA ∧
    elemA ≠ elemB := by
  refine ⟨rfl, rfl, by decide⟩

/-- C5 amended: when the quoted literal is introduced by the `текст:`
marker, the description carries none of the search/button keywords, and
exactly one visible, enabled element's text equals or contains the
literal, the resolver returns that element; and whenever no element of
the page is displayed, every tier fails and the resolver returns `None`
rather than raising. -/
theorem element_resolver_amended :
    (∀ (page : List Elem) (desc lit : String) (b : Elem),
      strContains (pyLower desc) "поиск" = false →
      strContains (pyLower desc) "search" = false →
      strContains (pyLower desc) "кнопка" = false →
      strContains (pyLower desc) "button" = false →
      searchTextLit desc = some lit →
      page.filter (fun e =>
          (e.text == lit || strContains e.text lit)
          && (e.displayed && e.enabled)) = [b] →
      find_element_by_description page desc = some b) ∧
    (∀ (page : List Elem) (desc : String),
      (∀ e ∈ page, e.displayed = false) →
      find_element_by_description page desc = none) := by
  constructor
  · intro page desc lit b h1 h2 h3 h4 hlit hone
    rw [find_element_by_description]
    simp only [h1, h2, h3, h4, Bool.or_self, Bool.false_eq_true, if_false,
      hlit, textTier_of_unique page lit b hone]
  · intro page desc h
    rw [find_element_by_description]
    have hkw : (if (strContains (pyLower desc) "поиск"
          || strContains (pyLower desc) "search") = true then
        tierBySelectors page searchSelectors
      else if (strContains (pyLower desc) "кнопка"
          || strContains (pyLower desc) "button") = true then
        buttonTier page buttonSelectors
      else none) = none := by
      split
      · exact tierBySelectors_none page h searchSelectors
      · split
        · exact buttonTier_none page h buttonSelectors
        · rfl
    rw [hkw]
    have htext : (match searchTextLit desc with
        | some lit => textTier page lit
        | none => none) = (none : Option Elem) := by
      cases searchTextLit desc with
      | none => rfl
      | some lit =>
        exact firstDisplayedEnabled_none page _ h
          (fun e he => (List.mem_filter.mp he).1)
    rw [htext, attrTier_none page desc h, fallbackGo_none page h]

/-- Witness for C5 (amended form) at a marked quoted literal. -/
theorem element_resolver_amended_witness :
    find_element_by_description pageT descT = some elemT :=
  element_resolver_amended.1 pageT descT "Hello" elemT rfl rfl rfl rfl rfl rfl

/-! ### C2, C3, C6 — the task-controller loop -/

/-- The loop's reported step count never exceeds the starting step plus
the remaining fuel. -/
theorem loopGo_reportedSteps_le (cfg : AgentConfig)
    (decide : ℕ → Option JObj) (browserExec : ℕ → JObj) :
    ∀ (fuel : ℕ) (st : LoopSt),
      (loopGo cfg decide browserExec fuel st).1.reportedSteps
        ≤ st.step + fuel := by
  intro fuel
  induction fuel with
  | zero =>
    intro st
    exact Nat.le_add_right st.step 0
  | succ fuel ih =>
    intro st
    simp only [loopGo]
    split
    · exact Nat.add_le_add_left (by omega) st.step
    · split
      · exact Nat.add_le_add_left (by omega) st.step
      · split
        · exact Nat.add_le_add_left (by omega) st.step
        · split
          · exact Nat.add_le_add_left (by omega) st.step
          · split
            · exact Nat.add_le_add_left (by omega) st.step
            · split
              · exact Nat.add_le_add_left (by omega) st.step
              · refine le_trans (ih _) ?_
                exact show st.step + 1 + fuel ≤ st.step + (fuel + 1) by omega

/-- When the reflection flag is readable, every decision is a
recognized non-terminal action whose execution returns a result, and
the reflection cadence never fires inside the remaining budget, the
loop runs its budget down and reports the step limit. -/
theorem loopGo_all_plain (cfg : AgentConfig)
    (decide : ℕ → Option JObj) (browserExec : ℕ → JObj) (flag : Bool)
    (hre : cfg.ENABLE_REFLECTION = some flag)
    (hall : ∀ n, ∃ d, decide n = some d ∧ isAction d "complete" = false ∧
      isAction d "ask_human" = false ∧
      ∃ r, execDecision browserExec n d = .ok r) :
    ∀ (fuel : ℕ) (st : LoopSt),
      (∀ n, st.step < n → n ≤ st.step + fuel →
        (flag && n % 5 == 0) = false) →
      (loopGo cfg decide browserExec fuel st).1
        = .stepLimit (st.step + fuel) cfg.MAX_STEPS := by
  intro fuel
  induction fuel with
  | zero =>
    intro st _
    rfl
  | succ fuel ih =>
    intro st hfire
    obtain ⟨d, hd, hc, hh, r, hr⟩ := hall (st.step + 1)
    have hf5 : (flag && (st.step + 1) % 5 == 0) = false :=
      hfire (st.step + 1) (by omega) (by omega)
    simp only [loopGo, hd, hr, hc, hh, hre, hf5, Bool.false_eq_true, if_false]
    rw [ih]
    · exact congrArg (fun m => RunOutcome.stepLimit m cfg.MAX_STEPS)
        (show st.step + 1 + fuel = st.step + (fuel + 1) by omega)
    · intro n h1 h2
      have h1a : st.step + 1 < n := h1
      have h2a : n ≤ st.step + 1 + fuel := h2
      exact hfire n (by omega) (by omega)

/-- The run's outcome is the loop's outcome: the `finally` block does
not change it (it either hands over an episode or raises, leaving the
loop's terminal dictionary as computed). -/
theorem runTaskLoop_outcome (md5 : String → String) (now : String)
    (cfg : AgentConfig) (decide : ℕ → Option JObj)
    (browserExec : ℕ → JObj) (sys0 : List String) (fs : PageState)
    (mem : MemoryState) :
    (runTaskLoop md5 now cfg decide browserExec sys0 fs mem).outcome
      = (loopGo cfg decide browserExec cfg.MAX_STEPS
          { step := 0, history := [], sys := sys0, reflSteps := [] }).1 := by
  rw [runTaskLoop]
  split
  · rfl
  · split <;> rfl

/-- C2 (amended): the controller never reports more steps than the
configured maximum, whatever the collaborators do; and when the
configuration defines the reflection flag and every step's decision is
produced, is neither `complete` nor `ask_human`, and executes without
raising, a `max_steps = 3` run terminates in the step-limit state
reporting exactly 3 steps. -/
theorem step_budget_amended :
    (∀ (md5 : String → String) (now : String) (cfg : AgentConfig)
       (decide : ℕ → Option JObj) (browserExec : ℕ → JObj)
       (sys0 : List String) (fs : PageState) (mem : MemoryState),
      (runTaskLoop md5 now cfg decide browserExec sys0
          fs mem).outcome.reportedSteps ≤ cfg.MAX_STEPS) ∧
    (∀ (md5 : String → String) (now : String) (cfg : AgentConfig)
       (decide : ℕ → Option JObj) (browserExec : ℕ → JObj)
       (sys0 : List String) (fs : PageState) (mem : MemoryState)
       (flag : Bool),
      cfg.MAX_STEPS = 3 →
      cfg.ENABLE_REFLECTION = some flag →
      (∀ n, ∃ d, decide n = some d ∧ isAction d "complete" = false ∧
        isAction d "ask_human" = false ∧
        ∃ r, execDecision browserExec n d = .ok r) →
      (runTaskLoop md5 now cfg decide browserExec sys0 fs mem).outcome
        = .stepLimit 3 3) := by
  constructor
  · intro md5 now cfg decide browserExec sys0 fs mem
    rw [runTaskLoop_outcome]
    simpa using loopGo_reportedSteps_le cfg decide browserExec cfg.MAX_STEPS
      { step := 0, history := [], sys := sys0, reflSteps := [] }
  · intro md5 now cfg decide browserExec sys0 fs mem flag h3 hre hall
    rw [runTaskLoop_outcome,
      loopGo_all_plain cfg decide browserExec flag hre hall]
    · simp [h3]
    · intro n h1 h2
      have h1a : (0 : ℕ) < n := h1
      have h2a : n ≤ 0 + cfg.MAX_STEPS := h2
      rw [h3] at h2a
      have h5 : n % 5 = n := Nat.mod_eq_of_lt (by omega)
      have hb : (n % 5 == 0) = false := by
        simp only [h5, beq_eq_false_iff_ne, ne_eq]
        omega
      rw [hb]
      exact Bool.and_false flag

/-- Counterexample for C2 as stated: a decision source that raised at
step 1 makes the run report the step-limit message after 1 step, not
3; and a produced, recognized `wait` decision with a string `seconds`
parameter makes `time.sleep` raise, ending the run `Failed` at step 1
even though no decision was `complete` or `ask_human`. -/
theorem step_budget_counterexample :
    ((runTaskLoop idDigest "" cfg3W noneStream okExec [] pageW
        mem0).outcome = .stepLimit 1 3 ∧
      RunOutcome.reportedSteps (.stepLimit 1 3) ≠ 3) ∧
    ((runTaskLoop idDigest "" cfg3W waitBadStream okExec [] pageW
        mem0).outcome
        = .errored "TypeError: an integer is required" 1 ∧
      RunOutcome.reportedSteps
        (.errored "TypeError: an integer is required" 1) ≠ 3) :=
  ⟨⟨rfl, by decide⟩, ⟨rfl, by decide⟩⟩

/-- Witness for C2 (amended) on a three-step all-navigate run. -/
theorem step_budget_amended_witness :
    (runTaskLoop idDigest "" cfg3W navStream okExec [] pageW
        mem0).outcome = .stepLimit 3 3 :=
  step_budget_amended.2 idDigest "" cfg3W navStream okExec []
    pageW mem0 true rfl rfl
    (fun n => ⟨navDecision, rfl, rfl, rfl, okExec n, rfl⟩)

/-- C3: with the repository's own `Config` (which lacks
`ENABLE_REFLECTION`), the reflection-cadence check at
src/agents/browser_agent.py line 203 raises on the very first
non-terminal step: the run aborts as `Failed` after step 1, the
reflection engine is never invoked, and no guidance is ever injected. -/
theorem reflection_flag_attribute_bug :
    (runTaskLoop idDigest "" repoConfig navStream okExec []
        pageW mem0).reflectionSteps = [] ∧
    (runTaskLoop idDigest "" repoConfig navStream okExec []
        pageW mem0).outcome = .errored enableReflectionAttrError 1 ∧
    (runTaskLoop idDigest "" repoConfig navStream okExec []
        pageW mem0).sysContext = [] :=
  ⟨rfl, rfl, rfl⟩

/-- Even when the reflection flag is supplied and true, the cadence
cannot complete: at step 5 the engine is invoked with `ActionRecord`
objects where `analyze_failure` expects dictionaries, its `action.get`
raises, the run aborts `Failed` at step 5, and no guidance is ever
injected. -/
theorem reflection_call_crashes_when_flag_defined :
    (runTaskLoop idDigest "" cfg6W navStream okExec []
        pageW mem0).reflectionSteps = [5] ∧
    (runTaskLoop idDigest "" cfg6W navStream okExec []
        pageW mem0).outcome = .errored reflectionCallAttrError 5 ∧
    (runTaskLoop idDigest "" cfg6W navStream okExec []
        pageW mem0).sysContext = [] :=
  ⟨rfl, rfl, rfl⟩

/-- Mapping a function over a list maps it over its adjacent pairs. -/
theorem adjacentPairs_map (f : α → β) (l : List α) :
    adjacentPairs (l.map f)
      = (adjacentPairs l).map (fun q => (f q.1, f q.2)) := by
  induction l with
  | nil => rfl
  | cons a t ih =>
    cases t with
    | nil => rfl
    | cons b t2 =>
      simp only [List.map, adjacentPairs] at ih ⊢
      rw [ih]

/-- Both members of an adjacent pair belong to the list. -/
theorem mem_adjacentPairs (l : List α) (p : α × α)
    (hp : p ∈ adjacentPairs l) : p.1 ∈ l ∧ p.2 ∈ l := by
  induction l with
  | nil => exact absurd hp (List.not_mem_nil p)
  | cons a t ih =>
    cases t with
    | nil => exact absurd hp (List.not_mem_nil p)
    | cons b t2 =>
      rw [show adjacentPairs (a :: b :: t2)
          = (a, b) :: adjacentPairs (b :: t2) from rfl] at hp
      rcases List.mem_cons.mp hp with h | h
      · subst h
        exact ⟨List.mem_cons_self a _, List.mem_cons_of_mem a
          (List.mem_cons_self b _)⟩
      · obtain ⟨h1, h2⟩ := ih h
        exact ⟨List.mem_cons_of_mem a h1, List.mem_cons_of_mem a h2⟩

/-- Pattern mining cannot raise on a pair of records whose type and
description fields are strings. -/
theorem pairPatterns_ok (r1 r2 : LoopRecord) (s1 s2 d1 : String)
    (h1 : r1.action_type = .str s1) (h2 : r2.action_type = .str s2)
    (hd : r1.action_description = .str d1) :
    ∃ ps, pairPatternsChecked (recordToJson r1) (recordToJson r2)
      = .ok ps := by
  have e1 : recordToJson r1 = .obj [("action_type", Json.str s1),
      ("action_description", Json.str d1), ("result", Json.obj r1.result)] := by
    rw [recordToJson, h1, hd]
  have e2 : recordToJson r2 = .obj [("action_type", Json.str s2),
      ("action_description", r2.action_description),
      ("result", Json.obj r2.result)] := by
    rw [recordToJson, h2]
  have g1 : dget [("action_type", Json.str s1),
      ("action_description", Json.str d1), ("result", Json.obj r1.result)]
      "action_type" = some (Json.str s1) := rfl
  have g2 : dget [("action_type", Json.str s1),
      ("action_description", Json.str d1), ("result", Json.obj r1.result)]
      "action_description" = some (Json.str d1) := rfl
  have g3 : dget [("action_type", Json.str s2),
      ("action_description", r2.action_description),
      ("result", Json.obj r2.result)] "action_type" = some (Json.str s2) := rfl
  rw [e1, e2]
  cases hc : strContains s1 "click" <;>
    simp only [pairPatternsChecked, dictGetOpt, g1, g2, g3, Option.getD_some,
      pyInStr, hc, Bool.false_eq_true, if_false, if_true] <;>
    exact ⟨_, rfl⟩

/-- Pattern mining over a list of raising-free pairs succeeds. -/
theorem patternsOfPairs_ok (pairs : List (Json × Json))
    (h : ∀ p ∈ pairs, ∃ ps, pairPatternsChecked p.1 p.2 = .ok ps) :
    ∃ out, patternsOfPairs pairs = .ok out := by
  induction pairs with
  | nil => exact ⟨[], rfl⟩
  | cons p rest ih =>
    obtain ⟨ps, hp⟩ := h p (List.mem_cons_self p rest)
    obtain ⟨out, hout⟩ := ih (fun q hq => h q (List.mem_cons_of_mem p hq))
    exact ⟨ps ++ out, by simp [patternsOfPairs, hp, hout]⟩

/-- Handing a history of string-typed records to the store succeeds,
with the stored episode carrying the given tag, actions and page
identity and landing at the end of the store. -/
theorem add_episode_ok (md5 : String → String) (now : String)
    (m : MemoryState) (url title pt : String) (l : List LoopRecord)
    (success : Bool)
    (hstr : ∀ r ∈ l, (∃ s, r.action_type = Json.str s) ∧
      ∃ s, r.action_description = Json.str s) :
    ∃ p, add_episode md5 now m url title pt (l.map recordToJson) success
        = .ok p ∧
      p.2.success = success ∧ p.2.actions = l.map recordToJson ∧
      p.2.url = url ∧ p.2.title = title ∧ p.2.page_type = pt ∧
      p.1.episodes = m.episodes ++ [p.2] := by
  have hpairs : ∀ p ∈ adjacentPairs (l.map recordToJson),
      ∃ ps, pairPatternsChecked p.1 p.2 = .ok ps := by
    intro p hp
    rw [adjacentPairs_map] at hp
    obtain ⟨q, hq, hpq⟩ := List.mem_map.mp hp
    obtain ⟨hq1, hq2⟩ := mem_adjacentPairs l q hq
    obtain ⟨⟨s1, hs1⟩, d1s, hd1⟩ := hstr q.1 hq1
    obtain ⟨⟨s2, hs2⟩, -⟩ := hstr q.2 hq2
    rw [← hpq]
    exact pairPatterns_ok q.1 q.2 s1 s2 d1s hs1 hs2 hd1
  obtain ⟨out, hout⟩ := patternsOfPairs_ok _ hpairs
  have hep : extract_patterns (l.map recordToJson) = .ok out.dedup := by
    unfold extract_patterns
    rw [hout]
  have hmain : add_episode md5 now m url title pt (l.map recordToJson)
      success
      = .ok
        ({ episodes := m.episodes ++
            [{ id := md5 (url ++ "_" ++ title ++ "_"
                  ++ toString (l.map recordToJson).length),
               url := url, title := title, page_type := pt,
               actions := l.map recordToJson, timestamp := now,
               success := success, learned_patterns := out.dedup }],
           patterns := out.dedup.foldl bumpPattern m.patterns },
         { id := md5 (url ++ "_" ++ title ++ "_"
              ++ toString (l.map recordToJson).length),
           url := url, title := title, page_type := pt,
           actions := l.map recordToJson, timestamp := now,
           success := success, learned_patterns := out.dedup }) := by
    unfold add_episode
    rw [hep]
  exact ⟨_, hmain, rfl, rfl, rfl, rfl, rfl, rfl⟩

/-- The run's reported history is the loop's history: the `finally`
block never mutates it. -/
theorem runTaskLoop_history (md5 : String → String) (now : String)
    (cfg : AgentConfig) (decide : ℕ → Option JObj)
    (browserExec : ℕ → JObj) (sys0 : List String) (fs : PageState)
    (mem : MemoryState) :
    (runTaskLoop md5 now cfg decide browserExec sys0 fs mem).history
      = (loopGo cfg decide browserExec cfg.MAX_STEPS
          { step := 0, history := [], sys := sys0, reflSteps := [] }).2.history := by
  rw [runTaskLoop]
  split
  · rfl
  · split <;> rfl

/-- C6 (amended): on every termination path, whenever at least one
action was recorded and every recorded action's type and description
values are strings (so pattern mining cannot raise), the run's history
is converted to an episode tagged with the final success flag and
appended to the episodic store, and no exception escapes the `finally`
block. -/
theorem episode_stored_when_history_nonempty (md5 : String → String)
    (now : String) (cfg : AgentConfig) (decide : ℕ → Option JObj)
    (browserExec : ℕ → JObj) (sys0 : List String)
    (fs : PageState) (mem : MemoryState)
    (h : (runTaskLoop md5 now cfg decide browserExec sys0 fs mem).history
      ≠ [])
    (hstr : ∀ r ∈ (runTaskLoop md5 now cfg decide browserExec sys0 fs
        mem).history,
      (∃ s, r.action_type = Json.str s) ∧
      ∃ s, r.action_description = Json.str s) :
    ∃ ep,
      (runTaskLoop md5 now cfg decide browserExec sys0 fs mem).savedEpisode
        = some ep ∧
      ep.success = (runTaskLoop md5 now cfg decide browserExec sys0 fs
          mem).outcome.successFlag ∧
      ep.actions = (runTaskLoop md5 now cfg decide browserExec sys0 fs
          mem).history.map recordToJson ∧
      ep.url = fs.url ∧ ep.title = fs.title ∧ ep.page_type = fs.page_type ∧
      (runTaskLoop md5 now cfg decide browserExec sys0 fs
          mem).memAfter.episodes = mem.episodes ++ [ep] ∧
      (runTaskLoop md5 now cfg decide browserExec sys0 fs mem).uncaught
        = none := by
  rw [runTaskLoop_history] at h hstr
  rcases hh : (loopGo cfg decide browserExec cfg.MAX_STEPS
      { step := 0, history := [], sys := sys0, reflSteps := [] }).2.history
    with _ | ⟨r0, rest⟩
  · rw [hh] at h
    exact absurd rfl h
  · rw [hh] at hstr
    obtain ⟨p, hp, hs, ha, hu, ht2, hpt, hm⟩ := add_episode_ok md5 now mem
      fs.url fs.title fs.page_type (r0 :: rest)
      (loopGo cfg decide browserExec cfg.MAX_STEPS
        { step := 0, history := [], sys := sys0, reflSteps := [] }).1.successFlag
      hstr
    rw [runTaskLoop, hh, hp]
    exact ⟨p.2, rfl, hs, ha, hu, ht2, hpt, hm, rfl⟩

/-- Counterexample for C6 as stated: a zero-budget run terminates on
the step-limit path with an empty history and no episode is handed to
the store; and a two-step run whose decisions carry a numeric
description reaches the `finally` block, where pattern mining raises —
nothing is stored and the exception escapes the call. -/
theorem episode_storage_counterexample :
    ((runTaskLoop idDigest "" cfg0W navStream okExec [] pageW
        mem0).savedEpisode = none ∧
      (runTaskLoop idDigest "" cfg0W navStream okExec [] pageW
        mem0).outcome = .stepLimit 0 0) ∧
    ((runTaskLoop idDigest "" cfg2W badDescStream okExec [] pageW
        mem0).history.length = 2 ∧
      (runTaskLoop idDigest "" cfg2W badDescStream okExec [] pageW
        mem0).savedEpisode = none ∧
      (runTaskLoop idDigest "" cfg2W badDescStream okExec [] pageW
        mem0).memAfter.episodes = [] ∧
      (runTaskLoop idDigest "" cfg2W badDescStream okExec [] pageW
        mem0).uncaught = some "AttributeError: lower") :=
  ⟨⟨rfl, rfl⟩, rfl, rfl, rfl, rfl⟩

/-- Witness for C6 (amended) on a three-step all-navigate run. -/
theorem episode_stored_when_history_nonempty_witness :
    ((runTaskLoop idDigest "" cfg3W navStream okExec [] pageW
        mem0).savedEpisode).isSome = true := by
  have hh : (runTaskLoop idDigest "" cfg3W navStream okExec [] pageW
      mem0).history = [recW, recW, recW] := rfl
  obtain ⟨ep, h1, -⟩ :=
    episode_stored_when_history_nonempty idDigest "" cfg3W navStream okExec
      [] pageW mem0
      (by rw [hh]; exact List.cons_ne_nil _ _)
      (by
        rw [hh]
        intro r hr
        simp only [List.mem_cons, List.not_mem_nil, or_false] at hr
        rcases hr with h | h | h <;> subst h <;>
          exact ⟨⟨"navigate", rfl⟩, ⟨"Перейти на страницу", rfl⟩⟩)
  rw [h1]
  rfl

end BrowserAI
